import Mathlib

/-!
Shallow embedding of the todo-backend service (`src/server.js` together with
the database module that creates the `todo` schema and runs the reclamation
sweep).  Rows of the five MySQL tables become Lean structures, the database
becomes an explicit `DBState`, and each route handler (taken at the point
after authentication and permission checking) becomes a pure function from
states to states.  Machine integers of the source (BIGINT UNSIGNED ids,
DATETIME instants) are modelled as `Nat`; fallible handlers return
`Except ClientErr`.
-/

namespace Todo

/-- The `role` ENUM of `todo.permissions`: `ENUM('owner', 'write', 'read')`. -/
inductive Role where
  | owner
  | write
  | read
deriving DecidableEq

/-- Ordinal level of a role in the hierarchy `owner > write > read`. -/
def roleLevel : Role → Nat
  | Role.owner => 3
  | Role.write => 2
  | Role.read => 1

/-- Parsing of the role strings accepted by `PUT /list/:listId/user/:userId`:
the handler accepts exactly the members of `['owner', 'write', 'read']`,
which coincide with the values of the `role` ENUM column. -/
def parseRole (s : String) : Option Role :=
  if s = "owner" then some Role.owner
  else if s = "write" then some Role.write
  else if s = "read" then some Role.read
  else none

/-- The `state` ENUM of `todo.items`. -/
inductive ItemState where
  | inProgress
  | complete
  | canceled
deriving DecidableEq

/-- Parsing of the item-state strings accepted by the item routes:
`['in-progress', 'complete', 'canceled']`. -/
def parseItemState (s : String) : Option ItemState :=
  if s = "in-progress" then some ItemState.inProgress
  else if s = "complete" then some ItemState.complete
  else if s = "canceled" then some ItemState.canceled
  else none

/-- A row of `todo.users`.  The password hash and salt are opaque binary
values, modelled as `Nat`. -/
structure UserRow where
  id : Nat
  firstName : Option String
  lastName : Option String
  username : String
  password : Nat
  salt : Nat
deriving DecidableEq

/-- A row of `todo.sessions` (`expirationDate` is a DATETIME, modelled as a
`Nat` instant). -/
structure SessionRow where
  id : Nat
  userId : Nat
  expirationDate : Nat
deriving DecidableEq

/-- A row of `todo.lists`. -/
structure ListRow where
  id : Nat
  name : String
deriving DecidableEq

/-- A row of `todo.items`. -/
structure ItemRow where
  id : Nat
  listId : Nat
  name : String
  description : Option String
  state : ItemState
deriving DecidableEq

/-- A row of `todo.permissions`.  `userId` is nullable (`BIGINT UNSIGNED`
without `NOT NULL`): anonymous list creation inserts a row with NULL
`userId`. -/
structure PermRow where
  id : Nat
  userId : Option Nat
  listId : Nat
  role : Role
deriving DecidableEq

/-- The whole `todo` database, with one AUTO_INCREMENT counter per table. -/
structure DBState where
  users : List UserRow
  sessions : List SessionRow
  lists : List ListRow
  items : List ItemRow
  permissions : List PermRow
  nextUserId : Nat
  nextSessionId : Nat
  nextListId : Nat
  nextItemId : Nat
  nextPermId : Nat
deriving DecidableEq

/-- The freshly initialised database: all tables empty, AUTO_INCREMENT
counters at 1. -/
def initState : DBState :=
  { users := [], sessions := [], lists := [], items := [], permissions := [],
    nextUserId := 1, nextSessionId := 1, nextListId := 1, nextItemId := 1,
    nextPermId := 1 }

/-- A `ClientError` as thrown by the handlers: HTTP status (default 400) and
machine-readable code. -/
structure ClientErr where
  status : Nat
  code : String
deriving DecidableEq

/-- The SQL predicate `userId = ? AND listId = ?` (with `userId IS NULL`
when the key is anonymous) used by the permission queries. -/
def permKey (uid : Option Nat) (lid : Nat) (p : PermRow) : Bool :=
  p.userId == uid && p.listId == lid

/-- `SELECT ... FROM todo.permissions WHERE userId = ? AND listId = ?`:
the first row matching the pair. -/
def findPerm (perms : List PermRow) (uid : Option Nat) (lid : Nat) : Option PermRow :=
  perms.find? (permKey uid lid)

/-- Number of permission rows holding a given (userId, listId) pair. -/
def countPermKey (perms : List PermRow) (uid : Option Nat) (lid : Nat) : Nat :=
  (perms.filter (permKey uid lid)).length

/-- Invariant I4: no two permission rows share a (userId, listId) pair. -/
def UniquePerms (perms : List PermRow) : Prop :=
  perms.Pairwise (fun p q => ¬(p.userId = q.userId ∧ p.listId = q.listId))

/-- The `ON DUPLICATE KEY UPDATE role = VALUES(role)` effect on one row:
replace the role of a row holding the key, leave every other row alone. -/
def roleUpd (uid : Option Nat) (lid : Nat) (r : Role) (p : PermRow) : PermRow :=
  if permKey uid lid p then { p with role := r } else p

/-- The upsert issued by `PUT /list/:listId/user/:userId`:
`INSERT INTO todo.permissions(userId, listId, role) VALUES (?, ?, ?)
ON DUPLICATE KEY UPDATE role = VALUES(role)` with the target user taken from
the URL path (hence non-NULL).  If a row with the (userId, listId) key
exists its role is replaced, otherwise a fresh row is inserted. -/
def grant (s : DBState) (target lid : Nat) (r : Role) : DBState :=
  if s.permissions.any (permKey (some target) lid) then
    { s with permissions := s.permissions.map (roleUpd (some target) lid r) }
  else
    { s with
      permissions := s.permissions ++ [⟨s.nextPermId, some target, lid, r⟩],
      nextPermId := s.nextPermId + 1 }

/-- The delete issued by `DELETE /list/:listId/user/:userId`:
`DELETE FROM todo.permissions WHERE userId = ? AND listId = ?`. -/
def revoke (s : DBState) (target lid : Nat) : DBState :=
  { s with permissions := s.permissions.filter (fun p => !(permKey (some target) lid p)) }

/-- The insert shared by signup and `POST /user/login`:
`INSERT INTO todo.sessions(userId, expirationDate) VALUES (?, ?)` with the
expiration set to `now + tokenLifetime`.  Returns the new state and the
AUTO_INCREMENT id of the inserted session. -/
def addSession (s : DBState) (uid now lifetime : Nat) : DBState × Nat :=
  ({ s with
     sessions := s.sessions ++ [⟨s.nextSessionId, uid, now + lifetime⟩],
     nextSessionId := s.nextSessionId + 1 }, s.nextSessionId)

/-- The delete issued by `POST /user/logout`:
`DELETE FROM todo.sessions WHERE id = ?`. -/
def deleteSession (s : DBState) (sid : Nat) : DBState :=
  { s with sessions := s.sessions.filter (fun x => !(x.id == sid)) }

/-- `POST /user` after body validation and password hashing: insert the user
(the UNIQUE(username) constraint raises ER_DUP_ENTRY, surfaced as the 409
`username-taken` client error), then insert a session expiring at
`now + tokenLifetime`.  On the duplicate-username error nothing has been
inserted.  Returns the final state and, on success, (userId, sessionId). -/
def signup (s : DBState) (fn ln : Option String) (un : String)
    (pwHash salt now lifetime : Nat) : DBState × Except ClientErr (Nat × Nat) :=
  if s.users.any (fun u => u.username == un) then
    (s, Except.error ⟨409, "username-taken"⟩)
  else
    let uid := s.nextUserId
    let s1 : DBState :=
      { s with users := s.users ++ [⟨uid, fn, ln, un, pwHash, salt⟩],
               nextUserId := uid + 1 }
    let r := addSession s1 uid now lifetime
    (r.1, Except.ok (uid, r.2))

/-- The validated body of `PUT /user`: the schema accepts optional
`firstName`, `lastName` and `password`. -/
structure UserBody where
  firstName : Option String
  lastName : Option String
  password : Option String
deriving DecidableEq

/-- `Object.keys(body).length === 0` for a validated `PUT /user` body. -/
def UserBody.isEmpty (b : UserBody) : Bool :=
  b.firstName == none && b.lastName == none && b.password == none

/-- `PUT /user` after authentication: if the validated body is empty the
handler returns at once, issuing no UPDATE; otherwise it issues
`UPDATE todo.users SET ? WHERE id = ?` (with a freshly salted hash when a
password is supplied), raising the opaque 500 error when no row matched.
The final `Bool` records whether a storage write (UPDATE) was issued. -/
def putUser (s : DBState) (uid : Nat) (b : UserBody) (newHash newSalt : Nat) :
    DBState × Except ClientErr Unit × Bool :=
  if b.isEmpty then (s, Except.ok (), false)
  else if s.users.any (fun u => u.id == uid) then
    ({ s with users := s.users.map (fun u =>
        if u.id == uid then
          { u with
            firstName := match b.firstName with
              | some v => some v
              | none => u.firstName,
            lastName := match b.lastName with
              | some v => some v
              | none => u.lastName,
            password := if b.password.isSome then newHash else u.password,
            salt := if b.password.isSome then newSalt else u.salt }
        else u) }, Except.ok (), true)
  else (s, Except.error ⟨500, "internal-error"⟩, true)

/-- `DELETE /user` after authentication: `DELETE FROM todo.users WHERE
id = ?`, with the schema's ON DELETE CASCADE removing the user's sessions
and permission rows. -/
def deleteUser (s : DBState) (uid : Nat) : DBState :=
  { s with
    users := s.users.filter (fun u => !(u.id == uid)),
    sessions := s.sessions.filter (fun x => !(x.userId == uid)),
    permissions := s.permissions.filter (fun p => !(p.userId == some uid)) }

/-- `POST /list` after optional authentication (the creator may be the
anonymous NULL user): `INSERT INTO todo.lists SET ?` followed by
`INSERT INTO todo.permissions(userId, listId, role) VALUES (?, ?, 'owner')`.
Returns the new state and the fresh list id. -/
def createList (s : DBState) (creator : Option Nat) (nm : String) : DBState × Nat :=
  let lid := s.nextListId
  ({ s with
     lists := s.lists ++ [⟨lid, nm⟩],
     nextListId := lid + 1,
     permissions := s.permissions ++ [⟨s.nextPermId, creator, lid, Role.owner⟩],
     nextPermId := s.nextPermId + 1 }, lid)

/-- The validated body of `PUT /list/:listId`: an optional `name`. -/
structure ListBody where
  name : Option String
deriving DecidableEq

/-- `Object.keys(body).length === 0` for a validated `PUT /list` body. -/
def ListBody.isEmpty (b : ListBody) : Bool :=
  b.name == none

/-- `PUT /list/:listId` after the `write` permission check: empty validated
body returns at once with no UPDATE; otherwise `UPDATE todo.lists SET ?
WHERE id = ?`, raising the opaque 500 error when no row matched.  The final
`Bool` records whether an UPDATE was issued. -/
def putList (s : DBState) (lid : Nat) (b : ListBody) :
    DBState × Except ClientErr Unit × Bool :=
  if b.isEmpty then (s, Except.ok (), false)
  else if s.lists.any (fun l => l.id == lid) then
    ({ s with lists := s.lists.map (fun l =>
        if l.id == lid then
          { l with name := match b.name with
              | some v => v
              | none => l.name }
        else l) }, Except.ok (), true)
  else (s, Except.error ⟨500, "internal-error"⟩, true)

/-- `DELETE /list/:listId` after the `owner` permission check:
`DELETE FROM todo.lists WHERE id = ?`, with ON DELETE CASCADE removing the
list's items and permission rows. -/
def deleteList (s : DBState) (lid : Nat) : DBState :=
  { s with
    lists := s.lists.filter (fun l => !(l.id == lid)),
    items := s.items.filter (fun it => !(it.listId == lid)),
    permissions := s.permissions.filter (fun p => !(p.listId == lid)) }

/-- `PUT /list/:listId/user/:userId` after authentication (required) and the
`owner` permission check: the handler rejects any role string outside
`['owner', 'write', 'read']` with the `invalid-role` client error (default
status 400) before touching storage, and otherwise issues the `grant`
upsert for the target user from the URL path. -/
def putListUser (s : DBState) (target lid : Nat) (roleStr : String) :
    DBState × Except ClientErr Unit :=
  match parseRole roleStr with
  | none => (s, Except.error ⟨400, "invalid-role"⟩)
  | some r => (grant s target lid r, Except.ok ())

/-- The body of `POST /list/:listId/item`: `name` required, `description`
and `state` optional (state still a raw string at this point). -/
structure NewItemBody where
  name : String
  description : Option String
  state : Option String
deriving DecidableEq

/-- `POST /list/:listId/item` after the `write` permission check: reject an
unknown state string with `invalid-state`, otherwise `INSERT INTO
todo.items SET ?` (the `state` column defaults to in-progress). -/
def createItem (s : DBState) (lid : Nat) (b : NewItemBody) :
    DBState × Except ClientErr Nat :=
  if b.state.isSome && (b.state.bind parseItemState).isNone then
    (s, Except.error ⟨400, "invalid-state"⟩)
  else
    ({ s with
       items := s.items ++
         [⟨s.nextItemId, lid, b.name, b.description,
           (b.state.bind parseItemState).getD ItemState.inProgress⟩],
       nextItemId := s.nextItemId + 1 }, Except.ok s.nextItemId)

/-- The validated body of `PUT /list/:listId/item/:itemId`: optional `name`,
`description` and `state` (state a raw string until checked). -/
structure ItemBody where
  name : Option String
  description : Option String
  state : Option String
deriving DecidableEq

/-- `Object.keys(body).length === 0` for a `PUT` item body. -/
def ItemBody.isEmpty (b : ItemBody) : Bool :=
  b.name == none && b.description == none && b.state == none

/-- The row produced by `UPDATE todo.items SET ?`: each column present in
the body replaces the stored one (the state string has already been
validated when this runs). -/
def applyItemBody (b : ItemBody) (it : ItemRow) : ItemRow :=
  { it with
    name := match b.name with
      | some v => v
      | none => it.name,
    description := match b.description with
      | some v => some v
      | none => it.description,
    state := match b.state.bind parseItemState with
      | some st => st
      | none => it.state }

/-- The SQL predicate `listId = ? AND id = ?` used by every per-item route:
only rows of the list named in the request path can match. -/
def itemKey (lid iid : Nat) (it : ItemRow) : Bool :=
  it.listId == lid && it.id == iid

/-- `GET /list/:listId/item/:itemId` after the `read` permission check:
`SELECT ... FROM todo.items WHERE listId = ? AND id = ?`, raising the
`missing-item` client error when no row matches. -/
def getItem (s : DBState) (lid iid : Nat) : Except ClientErr ItemRow :=
  match s.items.find? (itemKey lid iid) with
  | none => Except.error ⟨400, "missing-item"⟩
  | some it => Except.ok it

/-- `PUT /list/:listId/item/:itemId` after authentication and the `write`
permission check: an empty body returns at once with no UPDATE; an unknown
state string raises `invalid-state`; otherwise `UPDATE todo.items SET ?
WHERE listId = ? AND id = ?` is issued, raising `missing-item` when it
matched no row.  The final `Bool` records whether an UPDATE was issued. -/
def putItem (s : DBState) (lid iid : Nat) (b : ItemBody) :
    DBState × Except ClientErr Unit × Bool :=
  if b.isEmpty then (s, Except.ok (), false)
  else if b.state.isSome && (b.state.bind parseItemState).isNone then
    (s, Except.error ⟨400, "invalid-state"⟩, false)
  else if s.items.any (itemKey lid iid) then
    ({ s with items := s.items.map (fun it =>
        if itemKey lid iid it then applyItemBody b it else it) },
     Except.ok (), true)
  else (s, Except.error ⟨400, "missing-item"⟩, true)

/-- `DELETE /list/:listId/item/:itemId` after the `write` permission check:
`DELETE FROM todo.items WHERE listId = ? AND id = ?`, raising
`missing-item` when no row matched. -/
def deleteItem (s : DBState) (lid iid : Nat) : DBState × Except ClientErr Unit :=
  if s.items.any (itemKey lid iid) then
    ({ s with items := s.items.filter (fun it => !(itemKey lid iid it)) },
     Except.ok ())
  else (s, Except.error ⟨400, "missing-item"⟩)

/-- Pass 1 of the reclamation sweep:
`DELETE FROM todo.sessions WHERE expirationDate < NOW()`. -/
def purgePass1 (s : DBState) (now : Nat) : DBState :=
  { s with sessions := s.sessions.filter (fun x => !decide (x.expirationDate < now)) }

/-- The list ids referenced by at least one permission row
(`SELECT DISTINCT listId FROM todo.permissions`). -/
def referencedListIds (s : DBState) : List Nat :=
  s.permissions.map (fun p => p.listId)

/-- The ids of the lists pass 2 deletes: those referenced by no permission
row. -/
def purgedListIds (s : DBState) : List Nat :=
  (s.lists.filter (fun l => !((referencedListIds s).contains l.id))).map (fun l => l.id)

/-- Pass 2 of the reclamation sweep: `DELETE FROM todo.lists WHERE id NOT IN
(SELECT DISTINCT listId FROM todo.permissions)`, with ON DELETE CASCADE
removing the items and permission rows of every deleted list. -/
def purgePass2 (s : DBState) : DBState :=
  { s with
    lists := s.lists.filter (fun l => (referencedListIds s).contains l.id),
    items := s.items.filter (fun it => !((purgedListIds s).contains it.listId)),
    permissions := s.permissions.filter (fun p => !((purgedListIds s).contains p.listId)) }

/-- Failure injection for one run of `purge`: whether the bulk delete of
pass 1 (resp. pass 2) throws at the storage layer. -/
structure PurgeFailure where
  pass1Fails : Bool
  pass2Fails : Bool
deriving DecidableEq

/-- One scheduled run of the sweep, as wired by
`setTimeout(() => purge().catch(console.error), ...)` and
`setInterval(() => purge().catch(console.error), ...)`: the two passes run
sequentially inside one try block, so a throw in pass 1 aborts the run
before pass 2; the rejection is consumed by `.catch(console.error)`, i.e.
logged (the returned `Option String`) rather than propagated — the function
always returns normally, never crashing the host process. -/
def scheduledPurge (s : DBState) (now : Nat) (f : PurgeFailure) :
    DBState × Option String :=
  if f.pass1Fails then (s, some "pass1-failed")
  else
    let s1 := purgePass1 s now
    if f.pass2Fails then (s1, some "pass2-failed")
    else (purgePass2 s1, none)

/-- Modelled from the spec: `checkPermissions` lives in `src/util.js`, which
is not present under `src/`.  Per §4.4, `requireAtLeast(userId, listId,
minRole)` looks up the permission row for the pair (anonymous NULL being a
first-class key); if the row is absent, or its role is strictly below
`minRole` in the hierarchy, the result is Denied (`none`); otherwise the
actual role held is returned. -/
def requireAtLeast (s : DBState) (uid : Option Nat) (lid : Nat) (minRole : Role) :
    Option Role :=
  match findPerm s.permissions uid lid with
  | none => none
  | some p => if roleLevel p.role < roleLevel minRole then none else some p.role

/-- Modelled from the spec: `authenticate` lives in `src/util.js`, which is
not present under `src/`.  Per §4.5 (required mode, after the token has been
opened to a session id): resolve the session by id, failing Unauthorized
(`none`) when absent; if `expirationInstant <= now` fail Unauthorized;
otherwise return the identity (userId, sessionId). -/
def resolveSession (s : DBState) (sid : Nat) : Option SessionRow :=
  s.sessions.find? (fun x => x.id == sid)

/-- Modelled from the spec: required-mode authentication outcome (see
`resolveSession`); `none` is the Unauthorized failure. -/
def authRequired (s : DBState) (sid now : Nat) : Option (Nat × Nat) :=
  match resolveSession s sid with
  | none => none
  | some sess =>
    if sess.expirationDate ≤ now then none
    else some (sess.userId, sess.id)

/-- One service operation, relating a database state to a possible successor:
each constructor is one mutating route handler (taken after its
authentication and permission checks succeeded, with the hypotheses those
checks establish) or one scheduled sweep run. -/
inductive Step : DBState → DBState → Prop where
  | signupStep : ∀ s fn ln un pwHash salt now lifetime,
      Step s (signup s fn ln un pwHash salt now lifetime).1
  | loginStep : ∀ s uid now lifetime, Step s (addSession s uid now lifetime).1
  | logoutStep : ∀ s sid, Step s (deleteSession s sid)
  | putUserStep : ∀ s uid b newHash newSalt, Step s (putUser s uid b newHash newSalt).1
  | deleteUserStep : ∀ s uid, Step s (deleteUser s uid)
  | createListStep : ∀ s creator nm, Step s (createList s creator nm).1
  | putListStep : ∀ s lid b, Step s (putList s lid b).1
  | deleteListStep : ∀ s lid, Step s (deleteList s lid)
  | grantStep : ∀ s actor target lid roleStr,
      (requireAtLeast s (some actor) lid Role.owner).isSome = true →
      Step s (putListUser s target lid roleStr).1
  | revokeStep : ∀ s target lid, Step s (revoke s target lid)
  | createItemStep : ∀ s lid b, Step s (createItem s lid b).1
  | putItemStep : ∀ s lid iid b, Step s (putItem s lid iid b).1
  | deleteItemStep : ∀ s lid iid, Step s (deleteItem s lid iid).1
  | purgeStep : ∀ s now f, Step s (scheduledPurge s now f).1

/-- The states the service can reach from a freshly initialised database. -/
inductive Reachable : DBState → Prop where
  | init : Reachable initState
  | step : ∀ {s t}, Reachable s → Step s t → Reachable t

/-- `permKey` decides equality of the (userId, listId) pair. -/
theorem permKey_eq_true {uid : Option Nat} {lid : Nat} {p : PermRow} :
    permKey uid lid p = true ↔ p.userId = uid ∧ p.listId = lid := by
  simp [permKey]

theorem roleUpd_userId (uid : Option Nat) (lid : Nat) (r : Role) (p : PermRow) :
    (roleUpd uid lid r p).userId = p.userId := by
  unfold roleUpd; split <;> rfl

theorem roleUpd_listId (uid : Option Nat) (lid : Nat) (r : Role) (p : PermRow) :
    (roleUpd uid lid r p).listId = p.listId := by
  unfold roleUpd; split <;> rfl

/-- Under I4, at most one row holds a given (userId, listId) pair. -/
theorem countPermKey_le_one (ps : List PermRow) (uid : Option Nat) (lid : Nat)
    (h : UniquePerms ps) : countPermKey ps uid lid ≤ 1 := by
  induction ps with
  | nil => simp [countPermKey]
  | cons p t ih =>
    rcases List.pairwise_cons.mp h with ⟨hhd, htl⟩
    by_cases hk : permKey uid lid p = true
    · have hnil : t.filter (permKey uid lid) = [] := by
        apply List.filter_eq_nil_iff.mpr
        intro q hq hkq
        rcases permKey_eq_true.mp hk with ⟨h1, h2⟩
        rcases permKey_eq_true.mp hkq with ⟨h3, h4⟩
        exact hhd q hq ⟨h1.trans h3.symm, h2.trans h4.symm⟩
      simp [countPermKey, List.filter_cons, hk, hnil]
    · simpa [countPermKey, List.filter_cons, hk] using ih htl

/-- A matching row makes the count positive. -/
theorem countPermKey_pos (ps : List PermRow) (uid : Option Nat) (lid : Nat)
    (h : ps.any (permKey uid lid) = true) : 1 ≤ countPermKey ps uid lid := by
  rcases List.any_eq_true.mp h with ⟨p, hp, hk⟩
  exact List.length_pos_of_mem (List.mem_filter.mpr ⟨hp, hk⟩)

/-- The upsert preserves I4. -/
theorem uniquePerms_grant (s : DBState) (u lid : Nat) (r : Role)
    (h : UniquePerms s.permissions) : UniquePerms (grant s u lid r).permissions := by
  unfold grant
  split
  · exact List.pairwise_map.mpr
      (h.imp (fun hab => by
        simpa [roleUpd_userId, roleUpd_listId] using hab))
  · rename_i hany
    apply List.pairwise_append.mpr
    refine ⟨h, by simp, ?_⟩
    intro a ha b hb
    simp only [List.mem_singleton] at hb
    subst hb
    rintro ⟨h1, h2⟩
    exact hany (List.any_eq_true.mpr ⟨a, ha, permKey_eq_true.mpr ⟨h1, h2⟩⟩)

/-- Under I4 the upsert leaves exactly one row holding the pair. -/
theorem countPermKey_grant (s : DBState) (u lid : Nat) (r : Role)
    (h : UniquePerms s.permissions) :
    countPermKey (grant s u lid r).permissions (some u) lid = 1 := by
  unfold grant
  split
  · rename_i hany
    have hcomp : (permKey (some u) lid ∘ roleUpd (some u) lid r) = permKey (some u) lid := by
      funext p
      simp [permKey, roleUpd_userId, roleUpd_listId, Function.comp]
    have hlen : countPermKey (s.permissions.map (roleUpd (some u) lid r)) (some u) lid
        = countPermKey s.permissions (some u) lid := by
      unfold countPermKey
      rw [List.filter_map, hcomp, List.length_map]
    show countPermKey (s.permissions.map (roleUpd (some u) lid r)) (some u) lid = 1
    rw [hlen]
    exact Nat.le_antisymm (countPermKey_le_one _ _ _ h) (countPermKey_pos _ _ _ hany)
  · rename_i hany
    have h0 : s.permissions.filter (permKey (some u) lid) = [] := by
      apply List.filter_eq_nil_iff.mpr
      intro a ha hk
      exact hany (List.any_eq_true.mpr ⟨a, ha, hk⟩)
    show countPermKey (s.permissions ++ [⟨s.nextPermId, some u, lid, r⟩]) (some u) lid = 1
    unfold countPermKey
    rw [List.filter_append, h0]
    simp [permKey]

theorem find?_map_roleUpd (ps : List PermRow) (u lid : Nat) (r : Role)
    (h : ps.any (permKey (some u) lid) = true) :
    ∃ p, (ps.map (roleUpd (some u) lid r)).find? (permKey (some u) lid) = some p ∧
      p.userId = some u ∧ p.listId = lid ∧ p.role = r := by
  induction ps with
  | nil => simp at h
  | cons q t ih =>
    by_cases hk : permKey (some u) lid q = true
    · have hq : roleUpd (some u) lid r q = { q with role := r } := by
        simp [roleUpd, hk]
      have hk2 : permKey (some u) lid (roleUpd (some u) lid r q) = true := by
        rcases permKey_eq_true.mp hk with ⟨h1, h2⟩
        exact permKey_eq_true.mpr (by simp [hq, h1, h2])
      refine ⟨roleUpd (some u) lid r q, ?_, ?_, ?_, ?_⟩
      · simp [List.find?_cons, hk2]
      · rw [roleUpd_userId]; exact (permKey_eq_true.mp hk).1
      · rw [roleUpd_listId]; exact (permKey_eq_true.mp hk).2
      · simp [hq]
    · have ht : t.any (permKey (some u) lid) = true := by
        rcases List.any_eq_true.mp h with ⟨a, ha, hka⟩
        rcases List.mem_cons.mp ha with rfl | hat
        · exact absurd hka hk
        · exact List.any_eq_true.mpr ⟨a, hat, hka⟩
      rcases ih ht with ⟨p, hp, h1, h2, h3⟩
      have hqid : roleUpd (some u) lid r q = q := by simp [roleUpd, hk]
      refine ⟨p, ?_, h1, h2, h3⟩
      have hkq : permKey (some u) lid (roleUpd (some u) lid r q) = false := by
        rw [hqid]
        exact Bool.eq_false_iff.mpr hk
      simp [List.find?_cons, hkq, hp]

theorem find?_append_last (ps : List PermRow) (a : PermRow) (k : PermRow → Bool)
    (h : ps.any k = false) (hk : k a = true) : (ps ++ [a]).find? k = some a := by
  induction ps with
  | nil => simp [List.find?_cons, hk]
  | cons q t ih =>
    rw [List.any_cons, Bool.or_eq_false_iff] at h
    simp [List.find?_cons, h.1, ih h.2]

/-- After the upsert, the pair lookup finds a row carrying the granted
role. -/
theorem findPerm_grant (s : DBState) (u lid : Nat) (r : Role) :
    ∃ p, findPerm (grant s u lid r).permissions (some u) lid = some p ∧
      p.userId = some u ∧ p.listId = lid ∧ p.role = r := by
  unfold grant findPerm
  split
  · rename_i hany
    exact find?_map_roleUpd s.permissions u lid r hany
  · rename_i hany
    refine ⟨⟨s.nextPermId, some u, lid, r⟩, ?_, rfl, rfl, rfl⟩
    apply find?_append_last
    · exact Bool.eq_false_iff.mpr hany
    · simp [permKey]

/-- Every permission row references a list id below the AUTO_INCREMENT
counter of `todo.lists` (so a freshly inserted list can never collide with
an existing permission row). -/
def permBound (s : DBState) : Prop :=
  ∀ p ∈ s.permissions, p.listId < s.nextListId

/-- The inductive invariant maintained by every operation: I4 together with
the AUTO_INCREMENT bound. -/
def Inv (s : DBState) : Prop :=
  UniquePerms s.permissions ∧ permBound s

theorem inv_mono {s t : DBState} (hsub : List.Sublist t.permissions s.permissions)
    (hn : s.nextListId ≤ t.nextListId) (h : Inv s) : Inv t :=
  ⟨h.1.sublist hsub, fun p hp => Nat.lt_of_lt_of_le (h.2 p (hsub.subset hp)) hn⟩

theorem signup_frame (s : DBState) (fn ln : Option String) (un : String)
    (pwHash salt now lifetime : Nat) :
    (signup s fn ln un pwHash salt now lifetime).1.permissions = s.permissions ∧
    (signup s fn ln un pwHash salt now lifetime).1.nextListId = s.nextListId := by
  unfold signup addSession
  split <;> exact ⟨rfl, rfl⟩

theorem putUser_frame (s : DBState) (uid : Nat) (b : UserBody) (newHash newSalt : Nat) :
    (putUser s uid b newHash newSalt).1.permissions = s.permissions ∧
    (putUser s uid b newHash newSalt).1.nextListId = s.nextListId := by
  unfold putUser
  split
  · exact ⟨rfl, rfl⟩
  · split <;> exact ⟨rfl, rfl⟩

theorem putList_frame (s : DBState) (lid : Nat) (b : ListBody) :
    (putList s lid b).1.permissions = s.permissions ∧
    (putList s lid b).1.nextListId = s.nextListId := by
  unfold putList
  split
  · exact ⟨rfl, rfl⟩
  · split <;> exact ⟨rfl, rfl⟩

theorem createItem_frame (s : DBState) (lid : Nat) (b : NewItemBody) :
    (createItem s lid b).1.permissions = s.permissions ∧
    (createItem s lid b).1.nextListId = s.nextListId := by
  unfold createItem
  split <;> exact ⟨rfl, rfl⟩

theorem putItem_frame (s : DBState) (lid iid : Nat) (b : ItemBody) :
    (putItem s lid iid b).1.permissions = s.permissions ∧
    (putItem s lid iid b).1.nextListId = s.nextListId := by
  unfold putItem
  split
  · exact ⟨rfl, rfl⟩
  · split
    · exact ⟨rfl, rfl⟩
    · split <;> exact ⟨rfl, rfl⟩

theorem deleteItem_frame (s : DBState) (lid iid : Nat) :
    (deleteItem s lid iid).1.permissions = s.permissions ∧
    (deleteItem s lid iid).1.nextListId = s.nextListId := by
  unfold deleteItem
  split <;> exact ⟨rfl, rfl⟩

theorem scheduledPurge_frame (s : DBState) (now : Nat) (f : PurgeFailure) :
    List.Sublist (scheduledPurge s now f).1.permissions s.permissions ∧
    (scheduledPurge s now f).1.nextListId = s.nextListId := by
  unfold scheduledPurge
  split
  · exact ⟨List.Sublist.refl _, rfl⟩
  · split
    · exact ⟨List.Sublist.refl _, rfl⟩
    · exact ⟨List.filter_sublist _, rfl⟩

/-- A successful permission check names a list id already allocated. -/
theorem bound_of_check {s : DBState} {uid : Option Nat} {lid : Nat} {minRole : Role}
    (h : Inv s) (hq : (requireAtLeast s uid lid minRole).isSome = true) :
    lid < s.nextListId := by
  unfold requireAtLeast at hq
  cases hfind : findPerm s.permissions uid lid with
  | none => rw [hfind] at hq; simp at hq
  | some p =>
    unfold findPerm at hfind
    have hmem := List.mem_of_find?_eq_some hfind
    have hk := List.find?_some hfind
    rcases permKey_eq_true.mp hk with ⟨_, h2⟩
    exact h2 ▸ h.2 p hmem

theorem grant_nextListId (s : DBState) (u lid : Nat) (r : Role) :
    (grant s u lid r).nextListId = s.nextListId := by
  unfold grant
  split <;> rfl

theorem inv_grant {s : DBState} (u lid : Nat) (r : Role)
    (hb : lid < s.nextListId) (h : Inv s) : Inv (grant s u lid r) := by
  refine ⟨uniquePerms_grant s u lid r h.1, ?_⟩
  intro p hp
  rw [grant_nextListId]
  revert hp
  unfold grant
  split
  · intro hp
    rcases List.mem_map.mp hp with ⟨q, hq, rfl⟩
    rw [roleUpd_listId]
    exact h.2 q hq
  · intro hp
    rcases List.mem_append.mp hp with hold | hnew
    · exact h.2 p hold
    · simp only [List.mem_singleton] at hnew
      subst hnew
      exact hb

theorem inv_createList {s : DBState} (creator : Option Nat) (nm : String)
    (h : Inv s) : Inv (createList s creator nm).1 := by
  constructor
  · apply List.pairwise_append.mpr
    refine ⟨h.1, by simp, ?_⟩
    intro a ha b hb
    simp only [List.mem_singleton] at hb
    subst hb
    rintro ⟨_, h2⟩
    exact Nat.lt_irrefl _ (h2 ▸ h.2 a ha)
  · intro p hp
    rcases List.mem_append.mp hp with hold | hnew
    · exact Nat.lt_succ_of_lt (h.2 p hold)
    · simp only [List.mem_singleton] at hnew
      subst hnew
      exact Nat.lt_succ_self _

theorem inv_step {s t : DBState} (h : Inv s) (hstep : Step s t) : Inv t := by
  cases hstep with
  | signupStep fn ln un pwHash salt now lifetime =>
    rcases signup_frame s fn ln un pwHash salt now lifetime with ⟨h1, h2⟩
    exact inv_mono (by rw [h1]) (by rw [h2]) h
  | loginStep uid now lifetime =>
    exact inv_mono (List.Sublist.refl _) (Nat.le_refl _) h
  | logoutStep sid =>
    exact inv_mono (List.Sublist.refl _) (Nat.le_refl _) h
  | putUserStep uid b newHash newSalt =>
    rcases putUser_frame s uid b newHash newSalt with ⟨h1, h2⟩
    exact inv_mono (by rw [h1]) (by rw [h2]) h
  | deleteUserStep uid =>
    exact inv_mono (List.filter_sublist _) (Nat.le_refl _) h
  | createListStep creator nm =>
    exact inv_createList creator nm h
  | putListStep lid b =>
    rcases putList_frame s lid b with ⟨h1, h2⟩
    exact inv_mono (by rw [h1]) (by rw [h2]) h
  | deleteListStep lid =>
    exact inv_mono (List.filter_sublist _) (Nat.le_refl _) h
  | grantStep actor target lid roleStr hq =>
    unfold putListUser
    cases hparse : parseRole roleStr with
    | none => exact h
    | some r => exact inv_grant target lid r (bound_of_check h hq) h
  | revokeStep target lid =>
    exact inv_mono (List.filter_sublist _) (Nat.le_refl _) h
  | createItemStep lid b =>
    rcases createItem_frame s lid b with ⟨h1, h2⟩
    exact inv_mono (by rw [h1]) (by rw [h2]) h
  | putItemStep lid iid b =>
    rcases putItem_frame s lid iid b with ⟨h1, h2⟩
    exact inv_mono (by rw [h1]) (by rw [h2]) h
  | deleteItemStep lid iid =>
    rcases deleteItem_frame s lid iid with ⟨h1, h2⟩
    exact inv_mono (by rw [h1]) (by rw [h2]) h
  | purgeStep now f =>
    rcases scheduledPurge_frame s now f with ⟨h1, h2⟩
    exact inv_mono h1 (by rw [h2]) h

/-- Every reachable database state satisfies the inductive invariant. -/
theorem reachable_inv : ∀ s, Reachable s → Inv s := by
  intro s h
  induction h with
  | init =>
    refine ⟨List.Pairwise.nil, ?_⟩
    intro p hp
    cases hp
  | step _ hstep ih => exact inv_step ih hstep

/-- A state holding one orphaned list (no permission row references list 1),
as arises after an owner revokes their own permission. -/
def exC1 : DBState :=
  { initState with lists := [⟨1, "Orphan"⟩], nextListId := 2 }

/-- Claim C1, counterexample: in a state with an orphaned list, pass 2 of
the sweep would delete that list if it were attempted (first conjunct), yet
the run in which pass 1's delete fails leaves the state — the orphaned list
included — completely untouched (second conjunct): contrary to the claim,
pass 2 is NOT attempted after a pass-1 failure, because both passes share
one try block in `purge`. -/
theorem claim_C1_counterexample :
    (purgePass2 exC1).lists = [] ∧
    scheduledPurge exC1 0 ⟨true, false⟩ = (exC1, some "pass1-failed") := by
  exact ⟨rfl, rfl⟩

/-- Claim C1 (corrected): a failure of pass 1 aborts the run before pass 2
(nothing at all is deleted in that run), a failure of pass 2 keeps pass 1's
deletions, and in every case the failure is returned as a logged message to
the scheduler's catch rather than raised — `scheduledPurge` always returns
normally, so the host process never crashes. -/
theorem claim_C1_amended : ∀ (s : DBState) (now : Nat) (b : Bool),
    scheduledPurge s now ⟨true, b⟩ = (s, some "pass1-failed") ∧
    scheduledPurge s now ⟨false, true⟩ = (purgePass1 s now, some "pass2-failed") ∧
    scheduledPurge s now ⟨false, false⟩ = (purgePass2 (purgePass1 s now), none) := by
  intro s now b
  exact ⟨rfl, rfl, rfl⟩

/-- Claim C2: every reachable state satisfies invariant I4 — at most one
permission row per (userId, listId) pair, the anonymous NULL key included —
and `grant` is an upsert: from any I4 state it leaves exactly one row for
the granted pair, carrying the granted role, and repeating the same grant
still leaves exactly one row. -/
theorem claim_C2 :
    (∀ s, Reachable s → UniquePerms s.permissions) ∧
    (∀ (s : DBState) (u lid : Nat) (r : Role), UniquePerms s.permissions →
      countPermKey (grant s u lid r).permissions (some u) lid = 1 ∧
      (∃ p, findPerm (grant s u lid r).permissions (some u) lid = some p ∧
        p.role = r) ∧
      countPermKey (grant (grant s u lid r) u lid r).permissions (some u) lid = 1) := by
  constructor
  · intro s h
    exact (reachable_inv s h).1
  · intro s u lid r h
    refine ⟨countPermKey_grant s u lid r h, ?_,
      countPermKey_grant _ u lid r (uniquePerms_grant s u lid r h)⟩
    rcases findPerm_grant s u lid r with ⟨p, hp, _, _, h3⟩
    exact ⟨p, hp, h3⟩

/-- Witness for C2 at concrete inputs: a state reached by one anonymous
list creation satisfies I4, and a concrete grant leaves exactly one row. -/
theorem claim_C2_witness :
    UniquePerms ((createList initState none "Public").1).permissions ∧
    countPermKey (grant initState 7 3 Role.write).permissions (some 7) 3 = 1 := by
  constructor
  · exact claim_C2.1 _
      (Reachable.step Reachable.init (Step.createListStep initState none "Public"))
  · exact (claim_C2.2 initState 7 3 Role.write List.Pairwise.nil).1

/-- Claim C3: the hierarchy is the total order owner > write > read;
`requireAtLeast` is Denied (`none`) exactly when no row holds the pair or
the held role is strictly below the minimum; and after `grant` of role `r`,
a check at minimum `m` succeeds with `r` exactly when `r` is at least `m` —
so an owner satisfies write and read, a writer satisfies read but not
owner, and every role satisfies itself. -/
theorem claim_C3 :
    (roleLevel Role.read < roleLevel Role.write ∧
     roleLevel Role.write < roleLevel Role.owner) ∧
    (∀ (s : DBState) (uid : Option Nat) (lid : Nat) (minRole : Role),
      requireAtLeast s uid lid minRole = none ↔
        (findPerm s.permissions uid lid = none ∨
         ∃ p, findPerm s.permissions uid lid = some p ∧
           roleLevel p.role < roleLevel minRole)) ∧
    (∀ (s : DBState) (u lid : Nat) (r minRole : Role),
      requireAtLeast (grant s u lid r) (some u) lid minRole =
        if roleLevel r < roleLevel minRole then none else some r) := by
  refine ⟨by decide, ?_, ?_⟩
  · intro s uid lid minRole
    unfold requireAtLeast
    cases hfind : findPerm s.permissions uid lid with
    | none => simp
    | some p =>
      by_cases hlt : roleLevel p.role < roleLevel minRole
      · simp [hlt]
      · simp [hlt]
  · intro s u lid r minRole
    rcases findPerm_grant s u lid r with ⟨p, hp, _, _, h3⟩
    unfold requireAtLeast
    rw [hp]
    simp [h3]

/-- Claim C4: a session is usable for authentication iff its expiration
instant is strictly in the future at the instant of use.  Required-mode
authentication fails (Unauthorized) when the session is absent, and for a
present session it fails exactly when `expirationInstant <= now` — even
though the reclamation sweep has not yet deleted the row — while a session
expiring in the future yields the session's identity. -/
theorem claim_C4 :
    (∀ (s : DBState) (sid now : Nat),
      resolveSession s sid = none → authRequired s sid now = none) ∧
    (∀ (s : DBState) (sid now : Nat) (sess : SessionRow),
      resolveSession s sid = some sess →
        (authRequired s sid now = none ↔ sess.expirationDate ≤ now) ∧
        (now < sess.expirationDate →
          authRequired s sid now = some (sess.userId, sess.id))) := by
  constructor
  · intro s sid now h
    unfold authRequired
    rw [h]
  · intro s sid now sess h
    constructor
    · unfold authRequired
      rw [h]
      by_cases hle : sess.expirationDate ≤ now
      · simp [hle]
      · simp [hle]
    · intro hlt
      unfold authRequired
      rw [h]
      simp [Nat.not_le.mpr hlt]

/-- A state with one user and one session expiring at instant 100. -/
def sessState : DBState :=
  { initState with
    users := [⟨7, none, none, "johndoe", 0, 0⟩],
    sessions := [⟨1, 7, 100⟩],
    nextUserId := 8, nextSessionId := 2 }

/-- Witness for C4 at concrete inputs: the session expiring at 100 is
refused at instant 100 (boundary: `expirationInstant <= now`) and accepted
at instant 50. -/
theorem claim_C4_witness :
    authRequired sessState 1 100 = none ∧
    authRequired sessState 1 50 = some (7, 1) := by
  constructor
  · exact ((claim_C4.2 sessState 1 100 ⟨1, 7, 100⟩ rfl).1).mpr (by decide)
  · exact (claim_C4.2 sessState 1 50 ⟨1, 7, 100⟩ rfl).2 (by decide)

/-- A state holding one orphaned list that still contains an item. -/
def exC5 : DBState :=
  { initState with
    lists := [⟨1, "Orphan"⟩],
    items := [⟨1, 1, "Apples", none, ItemState.inProgress⟩],
    nextListId := 2, nextItemId := 2 }

/-- Claim C5, counterexample: a sweep run without storage failure does NOT
leave every item row unchanged — deleting an orphaned list cascades
(`FOREIGN KEY(listId) ... ON DELETE CASCADE`) to the items of that list, so
the item of the orphaned list is gone after the run. -/
theorem claim_C5_counterexample :
    exC5.items = [⟨1, 1, "Apples", none, ItemState.inProgress⟩] ∧
    ((scheduledPurge exC5 0 ⟨false, false⟩).1).items = [] := by
  exact ⟨rfl, rfl⟩

/-- Claim C5 (corrected): a sweep run without storage failure deletes
exactly the sessions with `expirationInstant < now` and exactly the lists
referenced by no permission row, leaving users, permissions, the other
sessions and the other lists unchanged; the items of the deleted lists are
removed with them by the cascade, and every other item is unchanged. -/
theorem claim_C5_amended : ∀ (s : DBState) (now : Nat),
    ((scheduledPurge s now ⟨false, false⟩).1).users = s.users ∧
    ((scheduledPurge s now ⟨false, false⟩).1).permissions = s.permissions ∧
    ((scheduledPurge s now ⟨false, false⟩).1).sessions =
      s.sessions.filter (fun x => !decide (x.expirationDate < now)) ∧
    ((scheduledPurge s now ⟨false, false⟩).1).lists =
      s.lists.filter (fun l => (referencedListIds s).contains l.id) ∧
    ((scheduledPurge s now ⟨false, false⟩).1).items =
      s.items.filter (fun it => !((purgedListIds s).contains it.listId)) := by
  intro s now
  refine ⟨rfl, ?_, rfl, rfl, rfl⟩
  show s.permissions.filter
      (fun p => !((purgedListIds (purgePass1 s now)).contains p.listId)) = s.permissions
  apply List.filter_eq_self.mpr
  intro p hp
  have hmem : p.listId ∈ referencedListIds s :=
    List.mem_map.mpr ⟨p, hp, rfl⟩
  have hnot : ¬ p.listId ∈ purgedListIds (purgePass1 s now) := by
    intro hin
    rcases List.mem_map.mp hin with ⟨l, hl, hid⟩
    have h2 := (List.mem_filter.mp hl).2
    rw [hid] at h2
    have h3 : ¬ p.listId ∈ referencedListIds (purgePass1 s now) := by simpa using h2
    exact h3 hmem
  simpa using hnot

/-- A state with one user named johndoe already present. -/
def dupState : DBState :=
  { initState with
    users := [⟨1, none, none, "johndoe", 0, 0⟩],
    nextUserId := 2 }

/-- Claim C6: a signup whose username matches an existing user fails with
the distinct 409 `username-taken` condition and the whole state — user
rows and session rows included — is unchanged (the session insert is never
reached, and the failed user insert inserted nothing). -/
theorem claim_C6 : ∀ (s : DBState) (fn ln : Option String) (un : String)
    (pwHash salt now lifetime : Nat),
    s.users.any (fun u => u.username == un) = true →
    signup s fn ln un pwHash salt now lifetime =
      (s, Except.error ⟨409, "username-taken"⟩) := by
  intro s fn ln un pwHash salt now lifetime h
  simp [signup, h]

/-- Witness for C6 at a concrete input: a second johndoe signup against
`dupState` fails with 409 `username-taken` and leaves the state intact. -/
theorem claim_C6_witness :
    signup dupState none none "johndoe" 5 6 0 3600 =
      (dupState, Except.error ⟨409, "username-taken"⟩) :=
  claim_C6 dupState none none "johndoe" 5 6 0 3600 (by decide)

/-- Claim C7: the grant handler rejects every role string outside
{owner, write, read} with the `invalid-role` client error (status 400) and
the permission store — the whole state — is unchanged by the rejected
call. -/
theorem claim_C7 : ∀ roleStr : String,
    (parseRole roleStr = none ↔
      ¬(roleStr = "owner" ∨ roleStr = "write" ∨ roleStr = "read")) ∧
    (∀ (s : DBState) (target lid : Nat), parseRole roleStr = none →
      putListUser s target lid roleStr =
        (s, Except.error ⟨400, "invalid-role"⟩)) := by
  intro roleStr
  constructor
  · unfold parseRole
    by_cases h1 : roleStr = "owner"
    · simp [h1]
    · by_cases h2 : roleStr = "write"
      · simp [h1, h2]
      · by_cases h3 : roleStr = "read"
        · simp [h1, h2, h3]
        · simp [h1, h2, h3]
  · intro s target lid h
    unfold putListUser
    rw [h]

/-- Witness for C7 at a concrete input: the role string admin is rejected
with `invalid-role` and the state is unchanged. -/
theorem claim_C7_witness :
    putListUser initState 7 1 "admin" =
      (initState, Except.error ⟨400, "invalid-role"⟩) :=
  (claim_C7 "admin").2 initState 7 1 (by decide)

/-- Claim C8: `revoke` and session deletion are idempotent — revoking a
pair that holds no permission row is not an error and leaves the state
unchanged, a second revoke right after a first changes nothing, and the
same holds for deleting a session id that does not exist. -/
theorem claim_C8 : ∀ (s : DBState) (target lid sid : Nat),
    (s.permissions.all (fun p => !(permKey (some target) lid p)) = true →
      revoke s target lid = s) ∧
    revoke (revoke s target lid) target lid = revoke s target lid ∧
    (s.sessions.all (fun x => !(x.id == sid)) = true → deleteSession s sid = s) ∧
    deleteSession (deleteSession s sid) sid = deleteSession s sid := by
  intro s target lid sid
  refine ⟨?_, ?_, ?_, ?_⟩
  · intro h
    show ({ s with permissions := s.permissions.filter (fun p => !(permKey (some target) lid p)) } : DBState) = s
    rw [List.filter_eq_self.mpr (List.all_eq_true.mp h)]
  · show ({ s with permissions := (s.permissions.filter (fun p => !(permKey (some target) lid p))).filter (fun p => !(permKey (some target) lid p)) } : DBState) = revoke s target lid
    rw [List.filter_eq_self.mpr fun a ha => (List.mem_filter.mp ha).2]
    rfl
  · intro h
    show ({ s with sessions := s.sessions.filter (fun x => !(x.id == sid)) } : DBState) = s
    rw [List.filter_eq_self.mpr (List.all_eq_true.mp h)]
  · show ({ s with sessions := (s.sessions.filter (fun x => !(x.id == sid))).filter (fun x => !(x.id == sid)) } : DBState) = deleteSession s sid
    rw [List.filter_eq_self.mpr fun a ha => (List.mem_filter.mp ha).2]
    rfl

/-- Witness for C8 at concrete inputs: on the empty initial state both
no-op deletes return the state unchanged. -/
theorem claim_C8_witness :
    revoke initState 7 1 = initState ∧ deleteSession initState 3 = initState := by
  refine ⟨(claim_C8 initState 7 1 3).1 (by decide), (claim_C8 initState 7 1 3).2.2.1 (by decide)⟩

/-- Claim C9: the per-item routes touch only item rows of the list named in
the request path.  When no item row carries both that listId and the
requested itemId (in particular when the item id belongs to a different
list), GET fails with `missing-item` returning no item, PUT (with a
non-empty, state-valid body) fails with `missing-item` leaving the state
unchanged, and DELETE fails with `missing-item` leaving the state
unchanged. -/
theorem claim_C9 : ∀ (s : DBState) (lid iid : Nat),
    s.items.all (fun it => !(itemKey lid iid it)) = true →
    getItem s lid iid = Except.error ⟨400, "missing-item"⟩ ∧
    (∀ b : ItemBody, b.isEmpty = false →
      (b.state.isSome && (b.state.bind parseItemState).isNone) = false →
      putItem s lid iid b = (s, Except.error ⟨400, "missing-item"⟩, true)) ∧
    deleteItem s lid iid = (s, Except.error ⟨400, "missing-item"⟩) := by
  intro s lid iid h
  have hall : ∀ it ∈ s.items, ¬ itemKey lid iid it = true := by
    intro it hit
    have := List.all_eq_true.mp h it hit
    simpa using this
  have hfind : s.items.find? (itemKey lid iid) = none :=
    List.find?_eq_none.mpr hall
  have hany : s.items.any (itemKey lid iid) = false := by
    rw [List.any_eq_false]
    exact hall
  refine ⟨?_, ?_, ?_⟩
  · unfold getItem
    rw [hfind]
  · intro b hb hst
    unfold putItem
    rw [hb, hst, hany]
    rfl
  · unfold deleteItem
    rw [hany]
    rfl

/-- A state with two lists where item 5 belongs to list 2, not list 1. -/
def crossState : DBState :=
  { initState with
    lists := [⟨1, "A"⟩, ⟨2, "B"⟩],
    items := [⟨5, 2, "Apples", none, ItemState.inProgress⟩],
    nextListId := 3, nextItemId := 6 }

/-- Witness for C9 at concrete inputs: item 5 lives in list 2, so reading,
updating or deleting it through list 1 fails with `missing-item` and
changes nothing. -/
theorem claim_C9_witness :
    getItem crossState 1 5 = Except.error ⟨400, "missing-item"⟩ ∧
    putItem crossState 1 5 ⟨some "Pears", none, none⟩ =
      (crossState, Except.error ⟨400, "missing-item"⟩, true) ∧
    deleteItem crossState 1 5 = (crossState, Except.error ⟨400, "missing-item"⟩) := by
  rcases claim_C9 crossState 1 5 (by decide) with ⟨h1, h2, h3⟩
  exact ⟨h1, h2 ⟨some "Pears", none, none⟩ (by decide) (by decide), h3⟩

/-- Claim C10: an update whose validated body has no recognized field is a
no-op — `PUT /user`, `PUT /list/:listId` and `PUT /list/:listId/item/:itemId`
return success, issue no storage write (the `Bool` write flag is false) and
leave the state unchanged. -/
theorem claim_C10 : ∀ (s : DBState) (uid lid iid newHash newSalt : Nat)
    (ub : UserBody) (lb : ListBody) (ib : ItemBody),
    (ub.isEmpty = true → putUser s uid ub newHash newSalt = (s, Except.ok (), false)) ∧
    (lb.isEmpty = true → putList s lid lb = (s, Except.ok (), false)) ∧
    (ib.isEmpty = true → putItem s lid iid ib = (s, Except.ok (), false)) := by
  intro s uid lid iid newHash newSalt ub lb ib
  refine ⟨?_, ?_, ?_⟩
  · intro h
    unfold putUser
    rw [h]
    rfl
  · intro h
    unfold putList
    rw [h]
    rfl
  · intro h
    unfold putItem
    rw [h]
    rfl

/-- Witness for C10 at concrete inputs: all three updates with the empty
body succeed on the initial state without writing. -/
theorem claim_C10_witness :
    putUser initState 1 ⟨none, none, none⟩ 0 0 = (initState, Except.ok (), false) ∧
    putList initState 1 ⟨none⟩ = (initState, Except.ok (), false) ∧
    putItem initState 1 1 ⟨none, none, none⟩ = (initState, Except.ok (), false) := by
  rcases claim_C10 initState 1 1 1 0 0 ⟨none, none, none⟩ ⟨none⟩ ⟨none, none, none⟩
    with ⟨h1, h2, h3⟩
  exact ⟨h1 rfl, h2 rfl, h3 rfl⟩

end Todo
